import Mathlib

/-!
# Verification of the Shift-Left Security Guardian agent

Shallow embedding of the repository's core logic:

* `agent/tools/security_scanner.py` — `SecurityScanner` (pattern table,
  `quick_scan`, `deep_analysis` fallback chunking, `_analyze_with_llm`,
  `_chunk_code`, `_get_severity`, `_deduplicate`);
* `agent/tools/code_generator.py` — `CodeGenerator.validate_fix`;
* `agent/tools/github_client.py` — `GitHubClient._parse_pr_url`,
  `get_pr_data`, `get_pr_diff` and the mock fallbacks;
* `agent/graph.py` — the `SecurityGuardianAgent` state machine
  (`_fetch_pr_data`, `_assess_risk`, `_quick_scan`, `_deep_analysis`,
  `_generate_fixes`, `_validate_fixes`, `_post_review`, `analyze_pr`).

Python strings are modelled as Lean `String` (a list of characters, matching
Python's sequence-of-code-points view).  Python regular-expression search
(`re.search` with `re.IGNORECASE`) is modelled by a small derivative-based
matcher run over the lower-cased line against the lower-cased pattern, which
agrees with `re` on the ASCII patterns of the scanner's table.  External
collaborators (the Vertex-AI reasoning service, the GitHub API, CPython's
`ast` parser) are modelled as explicit oracle parameters, exactly where the
source calls out to them.
-/

/-! ## Python string helpers -/

/-- Python whitespace as used by `str.strip` / `\s`. -/
def isPyWs (c : Char) : Bool :=
  c == ' ' || c == '\t' || c == '\n' || c == '\r' || c == '\x0b' || c == '\x0c'

/-- `str.strip()`: remove leading and trailing whitespace. -/
def pyStrip (s : String) : String :=
  String.mk (((s.data.dropWhile isPyWs).reverse.dropWhile isPyWs).reverse)

/-- ASCII lower-casing of one character (Python `str.lower` on ASCII text). -/
def pyLowerChar (c : Char) : Char :=
  if c.isUpper then Char.ofNat (c.toNat + 32) else c

/-- ASCII upper-casing of one character (Python `str.upper` on ASCII text). -/
def pyUpperChar (c : Char) : Char :=
  if c.isLower then Char.ofNat (c.toNat - 32) else c

/-- Python `str.lower()` (ASCII). -/
def pyLower (s : String) : String := String.mk (s.data.map pyLowerChar)

/-- Python `str.upper()` (ASCII). -/
def pyUpper (s : String) : String := String.mk (s.data.map pyUpperChar)

/-- Python slicing `s[:n]`. -/
def takeChars (n : Nat) (s : String) : String := String.mk (s.data.take n)

/-- Substring test on character lists: some tail starts with `needle`. -/
def listContainsSub (needle hay : List Char) : Bool :=
  hay.tails.any (fun t => needle.isPrefixOf t)

/-- Python `needle in hay` on strings. -/
def pyContains (hay needle : String) : Bool := listContainsSub needle.data hay.data

/-- Python `s.split('\n')` on the underlying character list: the pieces
between newline characters; never returns the empty list. -/
def splitNl : List Char → List (List Char)
  | [] => [[]]
  | c :: cs =>
    match splitNl cs with
    | [] => [[]]
    | t :: ts => if c == '\n' then [] :: t :: ts else (c :: t) :: ts

/-- Python `s.split('\n')` producing strings. -/
def pyLines (s : String) : List String := (splitNl s.data).map String.mk

/-- `'\n'.join` on character lists: the pieces separated by single newlines. -/
def joinNl : List (List Char) → List Char
  | [] => []
  | [l] => l
  | l :: ls => l ++ '\n' :: joinNl ls

/-- Python `'\n'.join(l)`. -/
def pyJoinNl (l : List String) : String := String.mk (joinNl (l.map String.data))

/-! ## A regular-expression matcher (Brzozowski derivatives)

Models CPython `re.search(pattern, line, re.IGNORECASE)` for the scanner's
pattern table: each pattern below is the translation of the corresponding
Python regex, matched against the lower-cased line (the table's patterns
are already written lower-case here, which is what `re.IGNORECASE` amounts
to on these ASCII patterns). -/

inductive Reg where
  | emp : Reg
  | eps : Reg
  | chCl : (Char → Bool) → Reg
  | seq : Reg → Reg → Reg
  | alt : Reg → Reg → Reg
  | star : Reg → Reg

/-- Sequencing with the obvious simplifications (keeps derivatives small). -/
def mkSeq : Reg → Reg → Reg
  | .emp, _ => .emp
  | .eps, r => r
  | r, s =>
    match s with
    | .emp => .emp
    | .eps => r
    | s => .seq r s

/-- Alternation with the obvious simplifications. -/
def mkAlt : Reg → Reg → Reg
  | .emp, r => r
  | r, s =>
    match s with
    | .emp => r
    | s => .alt r s

/-- Does the expression accept the empty string? -/
def nullable : Reg → Bool
  | .emp => false
  | .eps => true
  | .chCl _ => false
  | .seq r s => nullable r && nullable s
  | .alt r s => nullable r || nullable s
  | .star _ => true

/-- Brzozowski derivative with respect to one character. -/
def rderiv : Reg → Char → Reg
  | .emp, _ => .emp
  | .eps, _ => .emp
  | .chCl p, c => if p c then .eps else .emp
  | .seq r s, c =>
    if nullable r then mkAlt (mkSeq (rderiv r c) s) (rderiv s c)
    else mkSeq (rderiv r c) s
  | .alt r s, c => mkAlt (rderiv r c) (rderiv s c)
  | .star r, c => mkSeq (rderiv r c) (.star r)

/-- Does some prefix of `cs` match `r`? -/
def matchHere : Reg → List Char → Bool
  | .emp, _ => false
  | r, [] => nullable r
  | r, c :: cs => nullable r || matchHere (rderiv r c) cs

/-- `re.search`: does `r` match starting at some position of `cs`? -/
def rsearch (r : Reg) : List Char → Bool
  | [] => nullable r
  | cs@(_ :: t) => matchHere r cs || rsearch r t

/-- One literal character. -/
def rch (c : Char) : Reg := .chCl (fun x => x == c)

/-- A literal string. -/
def lit (s : String) : Reg := s.data.foldr (fun c r => mkSeq (rch c) r) .eps

/-- `.` — any character but a newline. -/
def clsAny : Reg := .chCl (fun c => c != '\n')

/-- `\s`. -/
def clsWs : Reg := .chCl isPyWs

/-- `["\']`. -/
def clsQuote : Reg := .chCl (fun c => c == '"' || c == '\'')

/-- `[^"\']`. -/
def clsNotQuote : Reg := .chCl (fun c => !(c == '"' || c == '\''))

/-- `\d`. -/
def clsDigit : Reg := .chCl Char.isDigit

/-- `[A-Za-z0-9\-_]`. -/
def clsWord : Reg := .chCl (fun c => c.isAlphanum || c == '-' || c == '_')

/-- `r*`. -/
def starR (r : Reg) : Reg := Reg.star r

/-- `r+`. -/
def plusR (r : Reg) : Reg := mkSeq r (Reg.star r)

/-- `r{n,}`. -/
def repAtLeast (n : Nat) (r : Reg) : Reg :=
  (List.replicate n r).foldr mkSeq (Reg.star r)

/-- Concatenation of a pattern list. -/
def cat (l : List Reg) : Reg := l.foldr mkSeq .eps

/-! ## `SecurityScanner` (`agent/tools/security_scanner.py`) -/

/-- A vulnerability record as built by the scanner (a Python dict in the
source; `line` is present only for pattern matches, `full_analysis` only for
LLM findings, mirroring which keys each code path sets). -/
structure Vuln where
  type : String
  severity : String
  line : Option Nat
  code_snippet : String
  description : String
  detection_method : String
  full_analysis : Option String
deriving DecidableEq, Repr

/-- `SecurityScanner._get_severity`: `severity_map.get(vuln_type, "medium")`. -/
def _get_severity (vuln_type : String) : String :=
  if vuln_type = "sql_injection" then "critical"
  else if vuln_type = "hardcoded_credentials" then "high"
  else if vuln_type = "xss" then "high"
  else if vuln_type = "path_traversal" then "high"
  else "medium"

/-- `self.patterns` of `SecurityScanner.__init__`, with each Python regex
translated to a `Reg` (written lower-case, see the matcher's note on
`re.IGNORECASE`). -/
def scannerPatterns : List (String × List (Reg × String)) :=
  [ ("sql_injection",
      [ (cat [lit "execute", starR clsWs, rch '(', starR clsWs, clsQuote,
              starR clsAny, lit "%s", starR clsAny, clsQuote],
         "SQL query with string formatting"),
        (cat [lit "execute", starR clsWs, rch '(', starR clsWs, rch 'f', clsQuote,
              starR clsAny, rch '{', starR clsAny, rch '}', starR clsAny, clsQuote],
         "SQL query with f-string"),
        (cat [lit ".raw", starR clsWs, rch '(', starR clsWs, clsQuote,
              starR clsAny, rch '+', starR clsAny, clsQuote],
         "Raw SQL with concatenation"),
        (cat [lit "db.execute", starR clsWs, rch '(', starR clsWs,
              starR clsAny, rch '+', starR clsAny, rch ')'],
         "Database execute with string concatenation") ]),
    ("hardcoded_credentials",
      [ (cat [lit "password", starR clsWs, rch '=', starR clsWs, clsQuote,
              plusR clsNotQuote, clsQuote],
         "Hardcoded password"),
        (cat [lit "api_key", starR clsWs, rch '=', starR clsWs, clsQuote,
              plusR clsNotQuote, clsQuote],
         "Hardcoded API key"),
        (cat [lit "secret", starR clsWs, rch '=', starR clsWs, clsQuote,
              plusR clsNotQuote, clsQuote],
         "Hardcoded secret"),
        (cat [lit "token", starR clsWs, rch '=', starR clsWs, clsQuote,
              repAtLeast 20 clsWord, clsQuote],
         "Hardcoded token"),
        (cat [lit "aws_secret_access_key", starR clsWs, rch '=', starR clsWs,
              clsQuote, plusR clsNotQuote, clsQuote],
         "AWS credentials") ]),
    ("xss",
      [ (cat [lit "innerhtml", starR clsWs, rch '=', starR clsWs,
              starR clsAny, lit "user"],
         "Potential XSS via innerHTML"),
        (cat [lit "eval", starR clsWs, rch '('],
         "eval() usage (XSS/injection risk)"),
        (lit "dangerouslysetinnerhtml",
         "React dangerouslySetInnerHTML") ]),
    ("path_traversal",
      [ (cat [lit "open", starR clsWs, rch '(', starR clsWs,
              starR clsAny, rch '+', starR clsAny, lit "user"],
         "File operation with user input"),
        (cat [lit "os.path.join", starR clsWs, rch '(',
              starR clsAny, lit "request."],
         "Path join with user input") ]) ]

/-- `re.search(pattern, line, re.IGNORECASE)` for a table pattern. -/
def lineSearch (r : Reg) (line : String) : Bool :=
  rsearch r (line.data.map pyLowerChar)

/-- The deduplication key of `SecurityScanner._deduplicate`:
`(vuln['type'], vuln.get('code_snippet', '')[:50])`. -/
def dedupKey (v : Vuln) : String × List Char := (v.type, v.code_snippet.data.take 50)

/-- Loop of `SecurityScanner._deduplicate`: keep the first record of each key. -/
def dedupGo (seen : List (String × List Char)) : List Vuln → List Vuln
  | [] => []
  | v :: vs =>
    if dedupKey v ∈ seen then dedupGo seen vs
    else v :: dedupGo (dedupKey v :: seen) vs

/-- `SecurityScanner._deduplicate`. -/
def _deduplicate (vulns : List Vuln) : List Vuln := dedupGo [] vulns

/-- The match loop of `SecurityScanner.quick_scan`, before deduplication:
for each category, each pattern, each (1-indexed) line, emit a record when
the pattern fires on the line. -/
def quickScanRaw (code : String) : List Vuln :=
  scannerPatterns.flatMap (fun tp =>
    tp.2.flatMap (fun pd =>
      (pyLines code).enum.flatMap (fun il =>
        if lineSearch pd.1 il.2 then
          [⟨tp.1, _get_severity tp.1, some (il.1 + 1), pyStrip il.2, pd.2,
            "pattern_matching", none⟩]
        else ([] : List Vuln))))

/-- `SecurityScanner.quick_scan`. -/
def quick_scan (code : String) : List Vuln := _deduplicate (quickScanRaw code)

/-- The single line of the spec's canonical SQL-injection example (it is also
line 4 of `GitHubClient._mock_diff`). -/
def canonicalSqlLine : String :=
  "query = \"SELECT * FROM users WHERE username='\" + username + \"'\""

/-- Recursion worker for `chunksOfPos`, structurally recursive on a fuel
that bounds the list length (so that the kernel can evaluate it). -/
def chunksFuel (n : Nat) : Nat → List α → List (List α)
  | _, [] => []
  | 0, l => [l]
  | fuel + 1, x :: xs =>
    ((x :: xs).take (n + 1)) :: chunksFuel n fuel ((x :: xs).drop (n + 1))

/-- Grouping of a list into consecutive chunks of `n + 1` elements (the loop
`for i in range(0, len(lines), max_lines)` of `SecurityScanner._chunk_code`;
the step of a Python `range` must be positive, which the `n + 1` indexing
makes explicit). -/
def chunksOfPos (n : Nat) (l : List α) : List (List α) := chunksFuel n l.length l

/-- `SecurityScanner._chunk_code`: split on newlines, group `max_lines` lines
at a time, rejoin each group with newlines. -/
def _chunk_code (code : String) (max_lines : Nat) : List String :=
  (chunksOfPos (max_lines - 1) (pyLines code)).map pyJoinNl

/-- The response-parsing part of `SecurityScanner._analyze_with_llm`
(everything after `analysis = response.content`): discard on an explicit
no-issue phrase, otherwise classify category and severity by substring
search and emit one record. -/
def parseAnalysis (code_snippet analysis : String) : Option Vuln :=
  if pyContains (pyLower analysis) "no security issues"
      || pyContains (pyLower analysis) "no vulnerabilities" then
    none
  else
    some ⟨(if pyContains (pyLower analysis) "sql injection" then "sql_injection"
      else if pyContains (pyLower analysis) "credential"
          || pyContains (pyLower analysis) "password" then "hardcoded_credentials"
      else if pyContains (pyLower analysis) "xss" then "xss"
      else if pyContains (pyLower analysis) "path traversal" then "path_traversal"
      else "unknown"),
      (if pyContains (pyLower analysis) "critical" then "critical"
      else if pyContains (pyLower analysis) "high" then "high"
      else if pyContains (pyLower analysis) "low" then "low"
      else "medium"),
      none, code_snippet, takeChars 300 analysis,
      "llm_analysis", some analysis⟩

/-- `SecurityScanner._analyze_with_llm`.  `llm code_snippet full_context`
models `llm.invoke(get_vulnerability_analysis_prompt(code_snippet,
full_context)).content`: the reasoning service's response text as a function
of the two strings the source feeds into the prompt. -/
def _analyze_with_llm (llm : String → String → String)
    (code_snippet full_context : String) : Option Vuln :=
  parseAnalysis code_snippet (llm code_snippet full_context)

/-- `SecurityScanner.deep_analysis`.  `ast code` models `ast.parse(code)`
followed by `_find_suspicious_nodes` (CPython's parser and AST walk):
`some sections` when the code parses, `none` for a `SyntaxError`, in which
case the source falls back to analyzing the first 3 fixed-size chunks. -/
def deep_analysis (ast : String → Option (List String))
    (llm : String → String → String) (code : String) : List Vuln :=
  match ast code with
  | some suspicious => suspicious.filterMap (fun s => _analyze_with_llm llm s code)
  | none =>
    ((_chunk_code code 50).take 3).filterMap (fun ch => _analyze_with_llm llm ch code)

/-! ## `CodeGenerator` (`agent/tools/code_generator.py`) -/

/-- A fix record as built by `CodeGenerator.generate_fix`. -/
structure FixSuggestion where
  type : String
  original_code : String
  fixed_code : String
  explanation : String
  full_response : String
  vulnerability_id : String
  file_path : String
  line_number : Nat
deriving DecidableEq, Repr

/-- The wrapping of `CodeGenerator.validate_fix`'s second parse attempt:
`"def temp_func():\n    " + fixed_code.replace('\n', '\n    ')`. -/
def wrapAsFuncBody (fixed_code : String) : String :=
  "def temp_func():\n    " ++ fixed_code.replace "\n" "\n    "

/-- `CodeGenerator.validate_fix`.  `pyParses s` models `ast.parse(s)`
succeeding (CPython's parser): the source returns `False` on an empty
string, `True` when the code or its function-wrapped form parses, and
otherwise accepts exactly the strings longer than 10 characters. -/
def validate_fix (pyParses : String → Bool) (fix : FixSuggestion) : Bool :=
  if fix.fixed_code = "" then false
  else if pyParses fix.fixed_code then true
  else if pyParses (wrapAsFuncBody fix.fixed_code) then true
  else decide (fix.fixed_code.length > 10)

/-! ## `GitHubClient` (`agent/tools/github_client.py`) -/

/-- PR metadata (`get_pr_data`'s returned dict). -/
structure PrData where
  number : Nat
  title : String
  body : String
  state : String
  author : String
  changed_files : Nat
  additions : Nat
  deletions : Nat
  commits : Nat
  files : List String
deriving DecidableEq, Repr

/-- `GitHubClient._mock_pr_data`. -/
def _mock_pr_data : PrData :=
  ⟨1, "Add user authentication", "Implementing login functionality", "open",
   "test-user", 3, 150, 20, 2, ["app.py", "db.py", "config.py"]⟩

/-- `GitHubClient._mock_diff`. -/
def _mock_diff : String :=
  "--- a/app.py\n" ++
  "+++ b/app.py\n" ++
  "@@ -10,7 +10,7 @@ def login(username, password):\n" ++
  "-    query = \"SELECT * FROM users WHERE username='\" + username + \"'\"\n" ++
  "+    query = f\"SELECT * FROM users WHERE username='{username}' AND password='{password}'\"\n" ++
  "     user = db.execute(query)\n"

/-- Attempt to match `github\.com/([^/]+)/([^/]+)/pull/(\d+)` at the start of
`cs`: the literal `github.com/`, a nonempty run without `/` (owner), `/`, a
nonempty run without `/` (repo), the literal `/pull/`, then at least one
digit (the greedy `\d+` takes the maximal run, which `int(...)` converts). -/
def prUrlMatchAt (cs : List Char) : Option (String × String × Nat) := do
  let rest0 ← if ("github.com/".data).isPrefixOf cs then
      some (cs.drop ("github.com/".data).length) else none
  let owner := rest0.takeWhile (fun c => c != '/')
  if owner.isEmpty then none else
  let rest1 := rest0.drop owner.length
  let rest2 ← match rest1 with
    | '/' :: r => some r
    | _ => none
  let repo := rest2.takeWhile (fun c => c != '/')
  if repo.isEmpty then none else
  let rest3 := rest2.drop repo.length
  let rest4 ← if ("/pull/".data).isPrefixOf rest3 then
      some (rest3.drop ("/pull/".data).length) else none
  let digits := rest4.takeWhile Char.isDigit
  if digits.isEmpty then none else
  some (String.mk owner, String.mk repo,
    digits.foldl (fun n c => n * 10 + (c.toNat - 48)) 0)

/-- `re.search` for the PR-URL pattern: the match at the leftmost position
where one exists (at each position the groups are forced, the pattern having
no choice points: `[^/]+` cannot cross a `/` and must reach the next one). -/
def searchPrUrl : List Char → Option (String × String × Nat)
  | [] => prUrlMatchAt []
  | c :: t =>
    match prUrlMatchAt (c :: t) with
    | some r => some r
    | none => searchPrUrl t

/-- `GitHubClient._parse_pr_url`: the regex search, raising
`ValueError(f"Invalid GitHub PR URL: {pr_url}")` when nothing matches. -/
def _parse_pr_url (pr_url : String) : Except String (String × String × Nat) :=
  match searchPrUrl pr_url.data with
  | some r => .ok r
  | none => .error ("Invalid GitHub PR URL: " ++ pr_url)

/-- `GitHubClient.get_pr_data`.  `gh` is the client created from the token
(`None` when `GITHUB_TOKEN` is unset); `fetch owner repo number` models the
`get_repo`/`get_pull` round trip, `.error` being a `GithubException` (which
the source catches, falling back to mock data).  A parse failure raises
`ValueError`, which the `except GithubException` clause does not catch, so
it propagates (`.error`). -/
def get_pr_data (gh : Option Unit) (fetch : String → String → Nat → Except String PrData)
    (pr_url : String) : Except String PrData :=
  match gh with
  | none => .ok _mock_pr_data
  | some _ =>
    match _parse_pr_url pr_url with
    | .error e => .error e
    | .ok (owner, repo, number) =>
      match fetch owner repo number with
      | .error _ => .ok _mock_pr_data
      | .ok d => .ok d

/-- `GitHubClient.get_pr_diff`, with the same structure as `get_pr_data`;
`fetchDiff` models fetching the PR and concatenating its per-file patches. -/
def get_pr_diff (gh : Option Unit) (fetchDiff : String → String → Nat → Except String String)
    (pr_url : String) : Except String String :=
  match gh with
  | none => .ok _mock_diff
  | some _ =>
    match _parse_pr_url pr_url with
    | .error e => .error e
    | .ok (owner, repo, number) =>
      match fetchDiff owner repo number with
      | .error _ => .ok _mock_diff
      | .ok d => .ok d

/-! ## `SecurityGuardianAgent` (`agent/graph.py`)

The LangGraph state machine, as the composition of its node functions in the
wiring order `fetch_pr → assess_risk → (quick_scan | deep_analysis) →
generate_fixes → validate_fixes → post_review`.  The external collaborators
each node calls are collected in `Oracles`; `messages` (unused by every
node) is omitted from the state. -/

/-- The external collaborators of one run. -/
structure Oracles where
  /-- The GitHub client (`None` when no token is configured). -/
  gh : Option Unit
  /-- `get_repo`/`get_pull` for `get_pr_data`. -/
  fetchPr : String → String → Nat → Except String PrData
  /-- `get_repo`/`get_pull`/patch concatenation for `get_pr_diff`. -/
  fetchDiff : String → String → Nat → Except String String
  /-- The reasoning service on the risk-decision prompt:
  `llm.invoke(get_decision_prompt(pr_data, diff)).content`. -/
  assess : PrData → String → String
  /-- The reasoning service on the vulnerability-analysis prompt
  (see `_analyze_with_llm`). -/
  analyze : String → String → String
  /-- `ast.parse` + `_find_suspicious_nodes` (see `deep_analysis`). -/
  ast : String → Option (List String)
  /-- `CodeGenerator.generate_fix vulnerability original_code context`
  (prompting, the reasoning service and the response extraction). -/
  generateFix : Vuln → String → String → FixSuggestion
  /-- `ast.parse` success, for `validate_fix`. -/
  pyParses : String → Bool
  /-- `GitHubClient.post_review`'s success boolean. -/
  postReview : String → List Vuln → List FixSuggestion → List String → Bool
  /-- `datetime.now().isoformat()`. -/
  now : String

/-- `AgentState` of `agent/graph.py`. -/
structure AgentState where
  pr_url : String
  pr_data : PrData
  diff_content : String
  risk_level : String
  analysis_strategy : String
  vulnerabilities : List Vuln
  suggested_fixes : List FixSuggestion
  reasoning_trace : List String
  should_continue : Bool
  iteration_count : Nat
deriving Repr

/-- The initial state built by `SecurityGuardianAgent.analyze_pr` (the empty
`pr_data` dict is the all-default record). -/
def initialState (pr_url : String) : AgentState :=
  ⟨pr_url, ⟨0, "", "", "", "", 0, 0, 0, 0, []⟩, "", "", "", [], [], [], true, 0⟩

/-- `SecurityGuardianAgent._fetch_pr_data`. -/
def fetchPrNode (O : Oracles) (st : AgentState) : Except String AgentState := do
  let reasoning := "[" ++ O.now ++ "] Fetching PR data from: " ++ st.pr_url
  let pr_data ← get_pr_data O.gh O.fetchPr st.pr_url
  let diff_content ← get_pr_diff O.gh O.fetchDiff st.pr_url
  return { st with
    pr_data := pr_data
    diff_content := diff_content
    reasoning_trace := st.reasoning_trace ++
      [reasoning,
       "Retrieved " ++ toString diff_content.length ++
         " characters of diff content, " ++ toString pr_data.changed_files ++
         " files changed"] }

/-- The branch of `SecurityGuardianAgent._assess_risk` on the lower-cased
reasoning-service response: `(risk_level, strategy)`. -/
def riskFromResponse (response : String) : String × String :=
  let risk_assessment := pyLower response
  if pyContains risk_assessment "high risk" || pyContains risk_assessment "critical" then
    ("high", "deep_analysis")
  else if pyContains risk_assessment "medium risk" then
    ("medium", "deep_analysis")
  else
    ("low", "quick_scan")

/-- `SecurityGuardianAgent._assess_risk`. -/
def assessRiskNode (O : Oracles) (st : AgentState) : AgentState :=
  let response := O.assess st.pr_data st.diff_content
  let risk_assessment := pyLower response
  let rs := riskFromResponse response
  { st with
    risk_level := rs.1
    analysis_strategy := rs.2
    reasoning_trace := st.reasoning_trace ++
      ["Risk Assessment: " ++ pyUpper rs.1,
       "Chosen Strategy: " ++ rs.2,
       "LLM Reasoning: " ++ takeChars 200 risk_assessment ++ "..."] }

/-- `SecurityGuardianAgent._quick_scan`. -/
def quickScanNode (st : AgentState) : AgentState :=
  let vulnerabilities := quick_scan st.diff_content
  { st with
    vulnerabilities := vulnerabilities
    reasoning_trace := st.reasoning_trace ++
      ["Quick scan found " ++ toString vulnerabilities.length ++ " potential issues"] ++
      (vulnerabilities.take 3).map (fun v =>
        "  - " ++ v.type ++ ": " ++ takeChars 80 v.description ++ "...") }

/-- `SecurityGuardianAgent._deep_analysis`: quick scan, then the AST+LLM
pass, then `all_vulns = quick_vulns + deep_vulns` (the source's comment says
"Combine and deduplicate" but only concatenates). -/
def deepAnalysisNode (O : Oracles) (st : AgentState) : AgentState :=
  let quick_vulns := quick_scan st.diff_content
  let deep_vulns := deep_analysis O.ast O.analyze st.diff_content
  let all_vulns := quick_vulns ++ deep_vulns
  { st with
    vulnerabilities := all_vulns
    reasoning_trace := st.reasoning_trace ++
      ["Deep analysis: " ++ toString quick_vulns.length ++ " pattern-based + " ++
         toString deep_vulns.length ++ " LLM-detected",
       "Total vulnerabilities: " ++ toString all_vulns.length] }

/-- `SecurityGuardianAgent._route_by_risk`. -/
def routeByRisk (st : AgentState) : String :=
  if st.analysis_strategy = "deep_analysis" then "deep" else "quick"

/-- The conditional edge out of `assess_risk`. -/
def scanStage (O : Oracles) (st : AgentState) : AgentState :=
  if routeByRisk st = "deep" then deepAnalysisNode O st else quickScanNode st

/-- `SecurityGuardianAgent._generate_fixes`. -/
def generateFixesNode (O : Oracles) (st : AgentState) : AgentState :=
  if st.vulnerabilities.isEmpty then
    { st with
      suggested_fixes := []
      reasoning_trace := st.reasoning_trace ++
        ["No vulnerabilities found - skipping fix generation"] }
  else
    let fixes := st.vulnerabilities.map (fun v =>
      O.generateFix v v.code_snippet st.diff_content)
    { st with
      suggested_fixes := fixes
      reasoning_trace := st.reasoning_trace ++
        ["Generated " ++ toString fixes.length ++ " secure code alternatives"] }

/-- `SecurityGuardianAgent._validate_fixes`: keep, in order, the fixes that
pass `validate_fix`, with one trace line per candidate. -/
def validateFixesNode (O : Oracles) (st : AgentState) : AgentState :=
  { st with
    suggested_fixes := st.suggested_fixes.filter (fun f => validate_fix O.pyParses f)
    reasoning_trace := st.reasoning_trace ++
      st.suggested_fixes.map (fun f =>
        if validate_fix O.pyParses f then "  ✓ Fix validated: " ++ f.type
        else "  ✗ Fix validation failed: " ++ f.type) }

/-- `SecurityGuardianAgent._post_review`. -/
def postReviewNode (O : Oracles) (st : AgentState) : AgentState :=
  let review_posted :=
    O.postReview st.pr_url st.vulnerabilities st.suggested_fixes st.reasoning_trace
  { st with
    reasoning_trace := st.reasoning_trace ++
      [if review_posted then "✓ Review posted successfully to GitHub"
       else "✗ Failed to post review"] }

/-- The state reached after `generate_fixes` (fetch, assess, the routed scan
stage, fix generation), given the state `fetch_pr` produced. -/
def preValidateState (O : Oracles) (st1 : AgentState) : AgentState :=
  generateFixesNode O (scanStage O (assessRiskNode O st1))

/-- The result dict returned by `SecurityGuardianAgent.analyze_pr`. -/
structure RunResult where
  pr_url : String
  risk_level : String
  analysis_strategy : String
  vulnerabilities_found : Nat
  fixes_generated : Nat
  reasoning_trace : List String
  vulnerabilities : List Vuln
  suggested_fixes : List FixSuggestion
deriving Repr

/-- `SecurityGuardianAgent.analyze_pr`: run the graph from the initial state
and package the final state (a raised exception — e.g. the `ValueError` of
`_parse_pr_url` — propagates out of `graph.invoke`, hence `Except`). -/
def analyze_pr (O : Oracles) (pr_url : String) : Except String RunResult := do
  let st1 ← fetchPrNode O (initialState pr_url)
  let st4 := preValidateState O st1
  let st5 := validateFixesNode O st4
  let st6 := postReviewNode O st5
  return ⟨pr_url, st6.risk_level, st6.analysis_strategy,
    st6.vulnerabilities.length, st6.suggested_fixes.length,
    st6.reasoning_trace, st6.vulnerabilities, st6.suggested_fixes⟩

/-! ## Concrete inputs used by the theorems below -/

/-- `BankingSystem.transfer_money` from `demo/test_cases/banking_app.py`
(lines 19–34), verbatim. -/
def bankingTransferCode : String := String.intercalate "\n"
  [ "    def transfer_money(self, from_account, to_account, amount):",
    "        \"\"\"Transfer money between accounts\"\"\"",
    "        # VULNERABILITY 2: SQL Injection via string concatenation",
    "        query = \"UPDATE accounts SET balance = balance - \" + str(amount) + \\",
    "                \" WHERE account_number = '\" + from_account + \"'\"",
    "        self.conn.execute(query)",
    "        ",
    "        query2 = \"UPDATE accounts SET balance = balance + \" + str(amount) + \\",
    "                 \" WHERE account_number = '\" + to_account + \"'\"",
    "        self.conn.execute(query2)",
    "        ",
    "        # VULNERABILITY 3: SQL Injection in transaction log",
    "        log_query = f\"INSERT INTO transactions (from_acc, to_acc, amount) VALUES ('{from_account}', '{to_account}', {amount})\"",
    "        self.conn.execute(log_query)",
    "        ",
    "        self.conn.commit()" ]

/-- A one-line diff on which both the pattern pass and the LLM pass flag the
same snippet.  The leading `)` makes it invalid Python — `ast.parse` raises
`SyntaxError` on a closing parenthesis with no opener — so `deep_analysis`
takes the chunking fallback, whose single chunk is the whole line. -/
def dupDiff : String := ")db.execute(a + b)"

/-- A state about to enter the `deep_analysis` node with `dupDiff` as the
fetched diff. -/
def dupState : AgentState := { initialState "u" with diff_content := dupDiff }

/-- Oracles for the duplicate-key run: no GitHub token, a reasoning service
whose vulnerability analysis answers with an explicit SQL-injection verdict,
and `ast` reflecting the `SyntaxError` on `dupDiff`. -/
def dupOracles : Oracles :=
  ⟨none, fun _ _ _ => .error "", fun _ _ _ => .error "", fun _ _ => "HIGH RISK",
   fun _ _ => "SQL Injection: CRITICAL.", fun _ => none,
   fun v o _ => ⟨v.type ++ "_fix", o, "x = 1", "e", "r", v.type, "", 0⟩,
   fun _ => true, fun _ _ _ _ => true, "t"⟩

/-- Oracles for a full mock-mode run: no GitHub token (so the mock PR data
and mock diff are used), a low-risk assessment, a syntactically-valid fix
from the generator, and a parser that accepts it. -/
def mockOracles : Oracles :=
  ⟨none, fun _ _ _ => .error "offline", fun _ _ _ => .error "offline",
   fun _ _ => "LOW RISK", fun _ _ => "No security issues detected.", fun _ => none,
   fun v o _ => ⟨v.type ++ "_fix", o, "import os", "e", "r", v.type, "", 0⟩,
   fun _ => true, fun _ _ _ _ => true, "2024-01-01T00:00:00"⟩

/-- The PR URL of the mock run. -/
def mockPrUrl : String := "https://github.com/test/repo/pull/1"

/-- The result of the full mock-mode run. -/
def mockRunResult : RunResult :=
  (analyze_pr mockOracles mockPrUrl).toOption.getD ⟨"", "", "", 0, 0, [], [], []⟩

/-! ## Theorems -/

/-- C2 (code bug): on an input consisting exactly of the literal line
`query = "SELECT * FROM users WHERE username='" + username + "'"` the
pattern scanner reports nothing at all — no pattern of the table matches the
line (no `execute(`/`.raw(`/`db.execute(` appears on it) — so in particular
no `sql_injection` finding with severity `critical` at line 1, contradicting
the spec's testable property.  Both the raw match list and the deduplicated
`quick_scan` output are empty. -/
theorem quick_scan_misses_canonical_sql_line :
    quickScanRaw canonicalSqlLine = [] ∧ quick_scan canonicalSqlLine = [] := by
  constructor <;> decide

set_option maxRecDepth 40000 in
/-- C3 (code bug): running `quick_scan` on the verbatim
`BankingSystem.transfer_money` source (the banking-transfer example with the
two string-concatenated UPDATE queries and the f-string INSERT) yields no
findings whatsoever — zero `sql_injection` records rather than the required
three — both before (`quickScanRaw`) and after deduplication: the queries
are built on lines without `execute(` and executed as `self.conn.execute(query)`,
which no table pattern matches. -/
theorem quick_scan_misses_banking_transfer :
    quickScanRaw bankingTransferCode = [] ∧ quick_scan bankingTransferCode = [] := by
  constructor <;> decide

/-- C6 (corrected): the category→severity map is total with default
`"medium"`, and maps `sql_injection` to `critical`, `hardcoded_credentials`,
`xss` and `path_traversal` to `high`, and every other category — including
`command_injection` and `weak_crypto`, which are not keys of the map — to
`medium`. -/
theorem get_severity_total_map :
    _get_severity "sql_injection" = "critical" ∧
    _get_severity "hardcoded_credentials" = "high" ∧
    _get_severity "xss" = "high" ∧
    _get_severity "path_traversal" = "high" ∧
    _get_severity "weak_crypto" = "medium" ∧
    ∀ t : String,
      t ∉ (["sql_injection", "hardcoded_credentials", "xss", "path_traversal"] : List String) →
      _get_severity t = "medium" := by
  refine ⟨rfl, rfl, rfl, rfl, rfl, fun t ht => ?_⟩
  have h1 : ¬ t = "sql_injection" := fun e => ht (by simp [e])
  have h2 : ¬ t = "hardcoded_credentials" := fun e => ht (by simp [e])
  have h3 : ¬ t = "xss" := fun e => ht (by simp [e])
  have h4 : ¬ t = "path_traversal" := fun e => ht (by simp [e])
  unfold _get_severity
  rw [if_neg h1, if_neg h2, if_neg h3, if_neg h4]

/-- C6 counterexample: `command_injection` is not a key of `severity_map`,
so `_get_severity` returns the `"medium"` default for it, not `"high"` as
the claim states. -/
theorem get_severity_command_injection_is_medium :
    _get_severity "command_injection" = "medium" ∧ "medium" ≠ "high" :=
  ⟨rfl, by decide⟩

/-- C7: `validate_fix` accepts a fix exactly when its extracted fixed code
is nonempty and either parses standalone, or parses wrapped as a function
body, or (both parse attempts failing or not — the lenient fallback) is
longer than 10 characters; in particular it returns `false` for every fix
whose fixed code is empty. -/
theorem validate_fix_accepts_iff (pyParses : String → Bool) (fix : FixSuggestion) :
    validate_fix pyParses fix = true ↔
      fix.fixed_code ≠ "" ∧
        (pyParses fix.fixed_code = true ∨
          pyParses (wrapAsFuncBody fix.fixed_code) = true ∨
          10 < fix.fixed_code.length) := by
  unfold validate_fix
  by_cases h0 : fix.fixed_code = ""
  · simp [h0]
  · by_cases h1 : pyParses fix.fixed_code
    · simp [h0, h1]
    · by_cases h2 : pyParses (wrapAsFuncBody fix.fixed_code)
      · simp [h0, h1, h2]
      · simp [h0, h1, h2]

/-- C8 (corrected, configured-client part): with a GitHub client configured,
a PR reference on which the URL pattern finds no match makes `get_pr_data`
raise `ValueError` at once — the result is that error for every possible
`fetch` collaborator, so the run aborts before any fetch, with no retry and
no fallback data. -/
theorem get_pr_data_malformed_url_hard_error
    (fetch : String → String → Nat → Except String PrData) (pr_url : String)
    (h : searchPrUrl pr_url.data = none) :
    get_pr_data (some ()) fetch pr_url =
      .error ("Invalid GitHub PR URL: " ++ pr_url) := by
  unfold get_pr_data _parse_pr_url
  rw [h]

/-- C8 witness: the malformed reference `.../acme/shop/pulls/7` (note
`pulls`) is rejected with the hard error, whatever the fetch collaborator
would have answered. -/
theorem get_pr_data_malformed_url_hard_error_witness :
    get_pr_data (some ()) (fun _ _ _ => .ok _mock_pr_data)
        "https://github.com/acme/shop/pulls/7" =
      .error ("Invalid GitHub PR URL: " ++ "https://github.com/acme/shop/pulls/7") :=
  get_pr_data_malformed_url_hard_error _ _ (by decide)

/-- C8 counterexample: with no token configured, `get_pr_data` returns the
mock dataset for a malformed reference without reporting any error — the
reference is never even parsed, although `_parse_pr_url` would reject it —
so the claim's "hard error, no silent default to other data" fails on the
tokenless path. -/
theorem get_pr_data_no_token_silent_mock :
    get_pr_data none (fun _ _ _ => .error "GithubException")
        "this is not a pull request reference" = .ok _mock_pr_data ∧
    _parse_pr_url "this is not a pull request reference" =
      .error ("Invalid GitHub PR URL: this is not a pull request reference") :=
  ⟨rfl, rfl⟩

/-- C4: for every reasoning-service response, the risk router yields tier
`high` when the lower-cased response contains `"high risk"` or `"critical"`,
else `medium` when it contains `"medium risk"`, else `low`; and the chosen
strategy is `deep_analysis` exactly when the tier is not `low` and
`quick_scan` exactly when it is `low`. -/
theorem assess_risk_tier_and_strategy (response : String) :
    ((pyContains (pyLower response) "high risk"
        || pyContains (pyLower response) "critical") = true →
      riskFromResponse response = ("high", "deep_analysis")) ∧
    ((pyContains (pyLower response) "high risk"
        || pyContains (pyLower response) "critical") = false →
      pyContains (pyLower response) "medium risk" = true →
      riskFromResponse response = ("medium", "deep_analysis")) ∧
    ((pyContains (pyLower response) "high risk"
        || pyContains (pyLower response) "critical") = false →
      pyContains (pyLower response) "medium risk" = false →
      riskFromResponse response = ("low", "quick_scan")) ∧
    ((riskFromResponse response).2 = "deep_analysis" ↔
      (riskFromResponse response).1 ≠ "low") ∧
    ((riskFromResponse response).2 = "quick_scan" ↔
      (riskFromResponse response).1 = "low") := by
  cases h1 : (pyContains (pyLower response) "high risk"
      || pyContains (pyLower response) "critical") <;>
    cases h2 : pyContains (pyLower response) "medium risk" <;>
      simp [riskFromResponse, h1, h2]

/-- C5 (corrected): a deep-analysis reasoning response with no
`"no security issues"`/`"no vulnerabilities"` phrase yields exactly one
vulnerability record, whose category follows the priority order
sql injection → credential/password → xss → path traversal → `"unknown"`,
whose severity follows critical → high → low → else `"medium"` (all
substring searches on the lower-cased response), whose description is the
first 300 characters of the raw response, and whose detection method is the
string `"llm_analysis"` the source writes (not `structural_llm`). -/
theorem analyze_with_llm_classification (code_snippet analysis : String)
    (h : (pyContains (pyLower analysis) "no security issues"
        || pyContains (pyLower analysis) "no vulnerabilities") = false) :
    ∃ v, parseAnalysis code_snippet analysis = some v ∧
      v.detection_method = "llm_analysis" ∧
      v.code_snippet = code_snippet ∧
      v.description = takeChars 300 analysis ∧
      v.full_analysis = some analysis ∧
      (pyContains (pyLower analysis) "sql injection" = true →
        v.type = "sql_injection") ∧
      (pyContains (pyLower analysis) "sql injection" = false →
        (pyContains (pyLower analysis) "credential"
          || pyContains (pyLower analysis) "password") = true →
        v.type = "hardcoded_credentials") ∧
      (pyContains (pyLower analysis) "sql injection" = false →
        (pyContains (pyLower analysis) "credential"
          || pyContains (pyLower analysis) "password") = false →
        pyContains (pyLower analysis) "xss" = true → v.type = "xss") ∧
      (pyContains (pyLower analysis) "sql injection" = false →
        (pyContains (pyLower analysis) "credential"
          || pyContains (pyLower analysis) "password") = false →
        pyContains (pyLower analysis) "xss" = false →
        pyContains (pyLower analysis) "path traversal" = true →
        v.type = "path_traversal") ∧
      (pyContains (pyLower analysis) "sql injection" = false →
        (pyContains (pyLower analysis) "credential"
          || pyContains (pyLower analysis) "password") = false →
        pyContains (pyLower analysis) "xss" = false →
        pyContains (pyLower analysis) "path traversal" = false →
        v.type = "unknown") ∧
      (pyContains (pyLower analysis) "critical" = true →
        v.severity = "critical") ∧
      (pyContains (pyLower analysis) "critical" = false →
        pyContains (pyLower analysis) "high" = true → v.severity = "high") ∧
      (pyContains (pyLower analysis) "critical" = false →
        pyContains (pyLower analysis) "high" = false →
        pyContains (pyLower analysis) "low" = true → v.severity = "low") ∧
      (pyContains (pyLower analysis) "critical" = false →
        pyContains (pyLower analysis) "high" = false →
        pyContains (pyLower analysis) "low" = false →
        v.severity = "medium") := by
  unfold parseAnalysis
  rw [if_neg (by simp [h])]
  exact ⟨_, rfl, rfl, rfl, rfl, rfl,
    fun h1 => by simp [h1],
    fun h1 h2 => by simp [h1, h2],
    fun h1 h2 h3 => by simp [h1, h2, h3],
    fun h1 h2 h3 h4 => by simp [h1, h2, h3, h4],
    fun h1 h2 h3 h4 => by simp [h1, h2, h3, h4],
    fun h1 => by simp [h1],
    fun h1 h2 => by simp [h1, h2],
    fun h1 h2 h3 => by simp [h1, h2, h3],
    fun h1 h2 h3 => by simp [h1, h2, h3]⟩

/-- C5 witness: on the concrete response
`"Path Traversal vulnerability. High severity."` the helper emits one
record classified `path_traversal`. -/
theorem analyze_with_llm_classification_witness :
    (parseAnalysis "open(base + user_path)"
        "Path Traversal vulnerability. High severity.").map Vuln.type =
      some "path_traversal" := by
  obtain ⟨v, hv, h2, h3, h4, h5, h6, h7, h8, h9, h10, h11, h12, h13, h14⟩ :=
    analyze_with_llm_classification "open(base + user_path)"
      "Path Traversal vulnerability. High severity." (by decide)
  have ht := h9 (by decide) (by decide) (by decide) (by decide)
  rw [hv]
  simp [ht]

/-- C5 counterexample: on a concrete SQL-injection response the emitted
record's detection method is the string `"llm_analysis"`, not the
`"structural_llm"` the claim states. -/
theorem analyze_with_llm_detection_method :
    (parseAnalysis "db.execute(q + a)"
        "SQL Injection detected. Severity: CRITICAL.").map Vuln.detection_method =
      some "llm_analysis" ∧ "llm_analysis" ≠ "structural_llm" := by
  constructor <;> decide

/-- Invariant of the deduplication loop: the kept records have pairwise
distinct keys, and none of their keys is in `seen`. -/
theorem dedupGo_key_nodup (vs : List Vuln) : ∀ seen : List (String × List Char),
    ((dedupGo seen vs).map dedupKey).Nodup ∧
      ∀ k ∈ (dedupGo seen vs).map dedupKey, k ∉ seen := by
  induction vs with
  | nil => intro seen; simp [dedupGo]
  | cons v vs ih =>
    intro seen
    rw [dedupGo]
    by_cases h : dedupKey v ∈ seen
    · rw [if_pos h]; exact ih seen
    · rw [if_neg h]
      obtain ⟨ihn, ihm⟩ := ih (dedupKey v :: seen)
      refine ⟨List.nodup_cons.mpr ⟨fun hk => ?_, ihn⟩, ?_⟩
      · exact (ihm _ hk) (List.mem_cons_self _ _)
      · intro k hk
        rcases List.mem_cons.mp hk with rfl | hk'
        · exact h
        · exact fun hks => (ihm k hk') (List.mem_cons_of_mem _ hks)

/-- C1 (corrected, quick-scan part): for every input the `quick_scan` output
passes through `_deduplicate`, so it contains no two entries with an equal
`(category, first-50-characters-of-snippet)` pair. -/
theorem quick_scan_keys_nodup (code : String) :
    ((quick_scan code).map dedupKey).Nodup :=
  (dedupGo_key_nodup (quickScanRaw code) []).1

/-- C1 counterexample: the `deep_analysis` graph node only concatenates the
pattern findings with the LLM findings ("Combine and deduplicate" says the
comment, but no deduplication is applied), so on the diff
`)db.execute(a + b)` — flagged by the `db.execute(...+...)` pattern and,
via the syntax-error chunking fallback (the leading `)` makes `ast.parse`
raise), by the LLM verdict `"SQL Injection: CRITICAL."` — the combined
vulnerability list carries the key `(sql_injection, ")db.execute(a + b)")`
twice. -/
theorem deep_analysis_combined_duplicate_key :
    ¬ (((deepAnalysisNode dupOracles dupState).vulnerabilities.map dedupKey).Nodup) := by
  decide

/-- C10: whenever a full run returns a result, that result is
self-consistent: `vulnerabilities_found` is the length of its
`vulnerabilities` list, `fixes_generated` is the length of its
`suggested_fixes` list, and the final `suggested_fixes` list is exactly the
order-preserving sublist of the generated fixes (the state after the
`generate_fixes` node) that pass `validate_fix`. -/
theorem analyze_pr_result_consistent (O : Oracles) (pr_url : String) (r : RunResult)
    (h : analyze_pr O pr_url = .ok r) :
    r.vulnerabilities_found = r.vulnerabilities.length ∧
    r.fixes_generated = r.suggested_fixes.length ∧
    ∃ st1, fetchPrNode O (initialState pr_url) = .ok st1 ∧
      r.suggested_fixes = (preValidateState O st1).suggested_fixes.filter
        (fun f => validate_fix O.pyParses f) := by
  unfold analyze_pr at h
  cases hf : fetchPrNode O (initialState pr_url) with
  | error e => rw [hf] at h; exact absurd h (by simp [Bind.bind, Except.bind])
  | ok st1 =>
    rw [hf] at h
    simp only [Bind.bind, Except.bind, pure, Except.pure] at h
    cases h
    exact ⟨rfl, rfl, st1, rfl, rfl⟩

set_option maxRecDepth 40000 in
/-- C10 witness: the full mock-mode run (no token: mock PR data and mock
diff, a low-risk assessment routing to `quick_scan`, one finding — the
password-pattern hit on the f-string diff line — one generated fix that
validates) returns a result, and it satisfies all three consistency
properties. -/
theorem analyze_pr_result_consistent_witness :
    analyze_pr mockOracles mockPrUrl = Except.ok mockRunResult ∧
    (mockRunResult.vulnerabilities_found = mockRunResult.vulnerabilities.length ∧
     mockRunResult.fixes_generated = mockRunResult.suggested_fixes.length ∧
     ∃ st1, fetchPrNode mockOracles (initialState mockPrUrl) = .ok st1 ∧
       mockRunResult.suggested_fixes =
         (preValidateState mockOracles st1).suggested_fixes.filter
           (fun f => validate_fix mockOracles.pyParses f)) :=
  ⟨rfl, analyze_pr_result_consistent mockOracles mockPrUrl mockRunResult rfl⟩

/-- `splitNl` never returns the empty list. -/
theorem splitNl_ne_nil (cs : List Char) : splitNl cs ≠ [] := by
  induction cs with
  | nil => simp [splitNl]
  | cons c cs ih =>
    rw [splitNl]
    cases h : splitNl cs with
    | nil => exact absurd h ih
    | cons t ts => by_cases hc : (c == '\n') = true <;> simp [hc]

/-- Joining the split pieces with newlines gives back the input. -/
theorem joinNl_splitNl (cs : List Char) : joinNl (splitNl cs) = cs := by
  induction cs with
  | nil => rfl
  | cons c cs ih =>
    rw [splitNl]
    cases h : splitNl cs with
    | nil => exact absurd h (splitNl_ne_nil cs)
    | cons t ts =>
      rw [h] at ih
      by_cases hc : (c == '\n') = true
      · have hceq : c = '\n' := by simpa using hc
        show joinNl (if (c == '\n') = true then [] :: t :: ts else (c :: t) :: ts) = c :: cs
        rw [if_pos hc]
        show '\n' :: joinNl (t :: ts) = c :: cs
        rw [ih, hceq]
      · show joinNl (if (c == '\n') = true then [] :: t :: ts else (c :: t) :: ts) = c :: cs
        rw [if_neg hc]
        cases ts with
        | nil =>
          show c :: t = c :: cs
          rw [show joinNl [t] = t from rfl] at ih
          rw [ih]
        | cons t2 ts2 =>
          show (c :: t) ++ '\n' :: joinNl (t2 :: ts2) = c :: cs
          rw [List.cons_append]
          rw [show t ++ '\n' :: joinNl (t2 :: ts2) = joinNl (t :: t2 :: ts2) from rfl, ih]

/-- No piece of `splitNl` contains a newline. -/
theorem splitNl_no_nl (cs : List Char) : ∀ p ∈ splitNl cs, ('\n' : Char) ∉ p := by
  induction cs with
  | nil => intro p hp; rw [show splitNl [] = [[]] from rfl] at hp; simp_all
  | cons c cs ih =>
    intro p hp
    rw [splitNl] at hp
    cases h : splitNl cs with
    | nil => exact absurd h (splitNl_ne_nil cs)
    | cons t ts =>
      rw [h] at hp ih
      have hp2 : p ∈ (if (c == '\n') = true then [] :: t :: ts else (c :: t) :: ts) := hp
      by_cases hc : (c == '\n') = true
      · rw [if_pos hc] at hp2
        rcases List.mem_cons.mp hp2 with rfl | hp3
        · simp
        · exact ih p hp3
      · rw [if_neg hc] at hp2
        rcases List.mem_cons.mp hp2 with rfl | hp3
        · intro hmem
          rcases List.mem_cons.mp hmem with he | hmem2
          · exact hc (by simp [he.symm])
          · exact ih t (List.mem_cons_self t ts) hmem2
        · exact ih p (List.mem_cons_of_mem t hp3)

/-- `splitNl` of a newline-free list is that one piece. -/
theorem splitNl_nlfree (cs : List Char) (h : ('\n' : Char) ∉ cs) : splitNl cs = [cs] := by
  induction cs with
  | nil => rfl
  | cons c cs ih =>
    have hc : ¬ c = '\n' := fun e => h (by simp [e])
    have h2 : ('\n' : Char) ∉ cs := fun e => h (List.mem_cons_of_mem _ e)
    rw [splitNl, ih h2]
    show (if (c == '\n') = true then [] :: cs :: [] else (c :: cs) :: []) = [c :: cs]
    rw [if_neg (by simp [hc])]

/-- Splitting a newline-free prefix, a newline and a rest. -/
theorem splitNl_append_nl (l rest : List Char) (h : ('\n' : Char) ∉ l) :
    splitNl (l ++ '\n' :: rest) = l :: splitNl rest := by
  induction l with
  | nil =>
    rw [List.nil_append, splitNl]
    cases hr : splitNl rest with
    | nil => exact absurd hr (splitNl_ne_nil rest)
    | cons t ts =>
      show (if (('\n' : Char) == '\n') = true then [] :: t :: ts else ('\n' :: t) :: ts)
        = [] :: t :: ts
      rw [if_pos (by simp)]
  | cons c l ih =>
    have hc : ¬ c = '\n' := fun e => h (by simp [e])
    have h2 : ('\n' : Char) ∉ l := fun e => h (List.mem_cons_of_mem _ e)
    rw [List.cons_append, splitNl, ih h2]
    show (if (c == '\n') = true then [] :: l :: splitNl rest else (c :: l) :: splitNl rest)
      = (c :: l) :: splitNl rest
    rw [if_neg (by simp [hc])]

/-- Splitting a newline-joined list of newline-free nonempty pieces gives
back the pieces. -/
theorem splitNl_joinNl (ls : List (List Char)) (hne : ls ≠ [])
    (hfree : ∀ p ∈ ls, ('\n' : Char) ∉ p) : splitNl (joinNl ls) = ls := by
  induction ls with
  | nil => exact absurd rfl hne
  | cons l ls ih =>
    cases ls with
    | nil =>
      rw [show joinNl [l] = l from rfl]
      exact splitNl_nlfree l (hfree l (List.mem_cons_self l []))
    | cons l2 ls2 =>
      rw [show joinNl (l :: l2 :: ls2) = l ++ '\n' :: joinNl (l2 :: ls2) from rfl]
      rw [splitNl_append_nl _ _ (hfree l (List.mem_cons_self l _))]
      rw [ih (by simp) (fun p hp => hfree p (List.mem_cons_of_mem _ hp))]

/-- `joinNl` over an append of nonempty lists of pieces. -/
theorem joinNl_append (a b : List (List Char)) (ha : a ≠ []) (hb : b ≠ []) :
    joinNl (a ++ b) = joinNl a ++ '\n' :: joinNl b := by
  induction a with
  | nil => exact absurd rfl ha
  | cons x a ih =>
    cases a with
    | nil =>
      cases b with
      | nil => exact absurd rfl hb
      | cons y b2 => rfl
    | cons x2 a2 =>
      show x ++ '\n' :: joinNl ((x2 :: a2) ++ b) =
        (x ++ '\n' :: joinNl (x2 :: a2)) ++ '\n' :: joinNl b
      rw [ih (by simp)]
      simp [List.append_assoc]

/-- Joining per-group joins equals joining the flattened groups, for
nonempty groups. -/
theorem joinNl_map_joinNl (css : List (List (List Char)))
    (hne : ∀ g ∈ css, g ≠ []) : joinNl (css.map joinNl) = joinNl css.flatten := by
  induction css with
  | nil => rfl
  | cons g css ih =>
    cases css with
    | nil =>
      show joinNl [joinNl g] = joinNl (g ++ [])
      rw [List.append_nil]
      rfl
    | cons g2 css2 =>
      have hg : g ≠ [] := hne g (List.mem_cons_self g _)
      have hflat : (g2 :: css2).flatten ≠ [] := by
        have hg2 : g2 ≠ [] := hne g2 (by simp)
        cases g2 with
        | nil => exact absurd rfl hg2
        | cons y ys => simp
      calc joinNl ((g :: g2 :: css2).map joinNl)
          = joinNl g ++ '\n' :: joinNl ((g2 :: css2).map joinNl) := rfl
        _ = joinNl g ++ '\n' :: joinNl (g2 :: css2).flatten := by
            rw [ih (fun p hp => hne p (List.mem_cons_of_mem _ hp))]
        _ = joinNl (g ++ (g2 :: css2).flatten) := (joinNl_append _ _ hg hflat).symm
        _ = joinNl ((g :: g2 :: css2).flatten) := by simp

/-- `chunksFuel` of the empty list is empty, whatever the fuel. -/
theorem chunksFuel_nil (n fuel : Nat) : chunksFuel (α := α) n fuel [] = [] := by
  cases fuel <;> rfl

/-- With enough fuel, the chunks flatten back to the input list. -/
theorem chunksFuel_flatten (n : Nat) : ∀ (fuel : Nat) (l : List α),
    l.length ≤ fuel → (chunksFuel n fuel l).flatten = l := by
  intro fuel
  induction fuel with
  | zero =>
    intro l h
    cases l with
    | nil => rfl
    | cons x xs => simp at h
  | succ fuel ih =>
    intro l h
    cases l with
    | nil => rfl
    | cons x xs =>
      show (((x :: xs).take (n + 1)) :: chunksFuel n fuel ((x :: xs).drop (n + 1))).flatten
        = x :: xs
      rw [List.flatten_cons, ih _ (by simp [List.length_drop] at h ⊢; omega),
        List.take_append_drop]

/-- With enough fuel, every chunk is nonempty and no longer than `n + 1`. -/
theorem chunksFuel_mem (n : Nat) : ∀ (fuel : Nat) (l : List α), l.length ≤ fuel →
    ∀ c ∈ chunksFuel n fuel l, c ≠ [] ∧ c.length ≤ n + 1 := by
  intro fuel
  induction fuel with
  | zero =>
    intro l h c hc
    cases l with
    | nil => rw [chunksFuel_nil] at hc; exact absurd hc (List.not_mem_nil c)
    | cons x xs => simp at h
  | succ fuel ih =>
    intro l h c hc
    cases l with
    | nil => rw [chunksFuel_nil] at hc; exact absurd hc (List.not_mem_nil c)
    | cons x xs =>
      rw [show chunksFuel n (fuel + 1) (x :: xs) =
        ((x :: xs).take (n + 1)) :: chunksFuel n fuel ((x :: xs).drop (n + 1)) from rfl] at hc
      rcases List.mem_cons.mp hc with rfl | hc2
      · exact ⟨by simp [List.take_succ_cons], List.length_take_le _ _⟩
      · exact ih _ (by simp [List.length_drop] at h ⊢; omega) c hc2

/-- With enough fuel, every chunk but the last has exactly `n + 1`
elements. -/
theorem chunksFuel_dropLast (n : Nat) : ∀ (fuel : Nat) (l : List α), l.length ≤ fuel →
    ∀ c ∈ (chunksFuel n fuel l).dropLast, c.length = n + 1 := by
  intro fuel
  induction fuel with
  | zero =>
    intro l h c hc
    cases l with
    | nil => rw [chunksFuel_nil] at hc; simp at hc
    | cons x xs => simp at h
  | succ fuel ih =>
    intro l h c hc
    cases l with
    | nil => rw [chunksFuel_nil] at hc; simp at hc
    | cons x xs =>
      rw [show chunksFuel n (fuel + 1) (x :: xs) =
        ((x :: xs).take (n + 1)) :: chunksFuel n fuel ((x :: xs).drop (n + 1)) from rfl] at hc
      cases hrest : chunksFuel n fuel ((x :: xs).drop (n + 1)) with
      | nil => rw [hrest] at hc; simp at hc
      | cons r rs =>
        rw [hrest, List.dropLast_cons₂] at hc
        rcases List.mem_cons.mp hc with rfl | hc2
        · have hdrop : (x :: xs).drop (n + 1) ≠ [] := by
            intro hd
            rw [hd, chunksFuel_nil] at hrest
            exact absurd hrest (by simp)
          have hlen : n + 1 < (x :: xs).length := by
            by_contra hcon
            push_neg at hcon
            exact hdrop (List.drop_eq_nil_of_le hcon)
          rw [List.length_take]
          omega
        · have := ih ((x :: xs).drop (n + 1))
            (by simp [List.length_drop] at h ⊢; omega) c
          rw [hrest] at this
          exact this hc2

/-- C9: the fallback chunker is a partition of the input into consecutive
groups: joining the chunks of `_chunk_code code 50` back with newlines
reproduces `code` exactly (no line lost, duplicated or reordered), every
chunk except possibly the last has exactly 50 lines, and every chunk has at
most 50 lines. -/
theorem chunk_code_partition_roundtrip (code : String) :
    pyJoinNl (_chunk_code code 50) = code ∧
    ((_chunk_code code 50).dropLast.all
      (fun c => (pyLines c).length == 50)) = true ∧
    ((_chunk_code code 50).all
      (fun c => decide ((pyLines c).length ≤ 50))) = true := by
  have hL : ∀ s ∈ pyLines code, ('\n' : Char) ∉ s.data := by
    intro s hs
    rcases List.mem_map.mp hs with ⟨p, hp, rfl⟩
    exact splitNl_no_nl code.data p hp
  have hflat : (chunksFuel 49 (pyLines code).length (pyLines code)).flatten = pyLines code :=
    chunksFuel_flatten 49 (pyLines code).length (pyLines code) (le_refl _)
  have hmem : ∀ g ∈ chunksFuel 49 (pyLines code).length (pyLines code),
      g ≠ [] ∧ g.length ≤ 50 :=
    chunksFuel_mem 49 (pyLines code).length (pyLines code) (le_refl _)
  have hround : ∀ g ∈ chunksFuel 49 (pyLines code).length (pyLines code),
      pyLines (pyJoinNl g) = g := by
    intro g hg
    show ((splitNl (joinNl (g.map String.data))).map String.mk) = g
    rw [splitNl_joinNl (g.map String.data)
      (fun he => (hmem g hg).1 (List.map_eq_nil_iff.mp he))
      (by
        intro p hp
        rcases List.mem_map.mp hp with ⟨s, hs, rfl⟩
        exact hL s (by rw [← hflat]; exact List.mem_flatten.mpr ⟨g, hg, hs⟩))]
    rw [List.map_map, show String.mk ∘ String.data = id from rfl, List.map_id]
  refine ⟨?_, ?_, ?_⟩
  · show String.mk (joinNl
      (((chunksFuel 49 (pyLines code).length (pyLines code)).map pyJoinNl).map
        String.data)) = code
    rw [List.map_map,
      show String.data ∘ pyJoinNl = (fun g => joinNl (g.map String.data)) from rfl,
      show ((chunksFuel 49 (pyLines code).length (pyLines code)).map
          (fun g => joinNl (g.map String.data)))
        = (((chunksFuel 49 (pyLines code).length (pyLines code)).map
            (fun g => g.map String.data)).map joinNl) from by rw [List.map_map]; rfl]
    rw [joinNl_map_joinNl _ (by
      intro g2 hg2
      rcases List.mem_map.mp hg2 with ⟨g, hg, rfl⟩
      exact fun he => (hmem g hg).1 (List.map_eq_nil_iff.mp he))]
    rw [(List.map_flatten String.data _).symm, hflat]
    rw [show (pyLines code).map String.data = splitNl code.data from by
      rw [show pyLines code = (splitNl code.data).map String.mk from rfl, List.map_map,
        show String.data ∘ String.mk = id from rfl, List.map_id]]
    rw [joinNl_splitNl]
  · rw [List.all_eq_true]
    intro c hc
    have hc2 : c ∈ ((chunksFuel 49 (pyLines code).length (pyLines code)).map
        pyJoinNl).dropLast := hc
    rw [← List.map_dropLast] at hc2
    rcases List.mem_map.mp hc2 with ⟨g, hg, rfl⟩
    rw [hround g (List.mem_of_mem_dropLast hg)]
    have : g.length = 50 :=
      chunksFuel_dropLast 49 (pyLines code).length (pyLines code) (le_refl _) g hg
    simp [this]
  · rw [List.all_eq_true]
    intro c hc
    have hc2 : c ∈ (chunksFuel 49 (pyLines code).length (pyLines code)).map pyJoinNl := hc
    rcases List.mem_map.mp hc2 with ⟨g, hg, rfl⟩
    rw [hround g hg]
    simpa using (hmem g hg).2
